import Mathlib

/-!
Shallow embedding of the account/ledger engine of `enhanced_atm.py`
(Enhanced ATM Simulator).  Money amounts (Python floats holding decimal
dollar values) are modelled as rationals; calendar dates and wall-clock
instants are modelled as natural numbers (days since an epoch, and seconds
since an epoch, respectively) and are passed explicitly to every operation
that reads the clock in the source.  Python objects mutated in place are
modelled by explicit state passing.
-/

/-- Account type enumeration (`AccountType` in the source). -/
inductive AccountType where
  | checking
  | savings
  | premium
deriving DecidableEq

/-- Transaction type enumeration (`TransactionType` in the source). -/
inductive TransactionType where
  | deposit
  | withdrawal
  | transfer
  | balance_inquiry
  | pin_change
deriving DecidableEq

/-- The `.value` string of each `AccountType` enum member. -/
def AccountType.value : AccountType → String
  | .checking => "checking"
  | .savings => "savings"
  | .premium => "premium"

/-- Inverse of `AccountType.value`, modelling the Python enum call
`AccountType(account_type_str)` (which raises on an unknown string). -/
def AccountType.fromValue? (s : String) : Option AccountType :=
  if s = "checking" then some AccountType.checking
  else if s = "savings" then some AccountType.savings
  else if s = "premium" then some AccountType.premium
  else none

/-- The `_get_overdraft_limit` table of `Account`. -/
def AccountType.get_overdraft_limit : AccountType → ℚ
  | .checking => 100
  | .savings => 0
  | .premium => 500

/-- The `_get_daily_limit` table of `Account`. -/
def AccountType.get_daily_limit : AccountType → ℚ
  | .checking => 500
  | .savings => 300
  | .premium => 1000

/-- State of an `Account` object: the fields set by `Account.__init__`. -/
structure Account where
  account_id : String
  account_type : AccountType
  balance : ℚ
  overdraft_limit : ℚ
  daily_withdrawal_limit : ℚ
  daily_withdrawn : ℚ
  last_reset_date : Nat
deriving DecidableEq

/-- Embedding of `Account.__init__(account_id, account_type, balance)`; the constructor
reads `datetime.date.today()`, passed here as `today`. -/
def Account.init (account_id : String) (t : AccountType) (balance : ℚ)
    (today : Nat) : Account :=
  { account_id := account_id
    account_type := t
    balance := balance
    overdraft_limit := t.get_overdraft_limit
    daily_withdrawal_limit := t.get_daily_limit
    daily_withdrawn := 0
    last_reset_date := today }

/-- Embedding of `Account.reset_daily_limit_if_needed`: reset the daily withdrawal
counter when the local date has advanced. -/
def Account.reset_daily_limit_if_needed (a : Account) (today : Nat) : Account :=
  if a.last_reset_date < today then
    { a with daily_withdrawn := 0, last_reset_date := today }
  else a

/-- Which branch of `Account.can_withdraw` produced the returned message. -/
inductive WithdrawCheck where
  | ok
  | invalidAmount
  | dailyLimitExceeded
  | insufficientFunds
deriving DecidableEq

/-- Embedding of `Account.can_withdraw(amount)`.  Returns the `(bool, message)` pair
together with the (possibly reset) account state, since the Python method
mutates `self` through `reset_daily_limit_if_needed`. -/
def Account.can_withdraw (a : Account) (today : Nat) (amount : ℚ) :
    (Bool × WithdrawCheck) × Account :=
  let a' := a.reset_daily_limit_if_needed today
  if amount ≤ 0 then ((false, WithdrawCheck.invalidAmount), a')
  else if a'.daily_withdrawal_limit < a'.daily_withdrawn + amount then
    ((false, WithdrawCheck.dailyLimitExceeded), a')
  else if a'.balance + a'.overdraft_limit < amount then
    ((false, WithdrawCheck.insufficientFunds), a')
  else ((true, WithdrawCheck.ok), a')

/-- Embedding of `Account.withdraw(amount)`: re-runs `can_withdraw`; on success
decrements the balance and increments `daily_withdrawn`. -/
def Account.withdraw (a : Account) (today : Nat) (amount : ℚ) :
    Bool × Account :=
  let r := a.can_withdraw today amount
  if r.1.1 then
    (true, { r.2 with
              balance := r.2.balance - amount
              daily_withdrawn := r.2.daily_withdrawn + amount })
  else (false, r.2)

/-- Embedding of `Account.deposit(amount)`: increments the balance when `amount > 0`. -/
def Account.deposit (a : Account) (amount : ℚ) : Bool × Account :=
  if 0 < amount then (true, { a with balance := a.balance + amount })
  else (false, a)

/-- Seconds-within-day component of a Python `timedelta` spanning
`elapsed` seconds (the `.seconds` attribute, which drops whole days). -/
def timedeltaSecondsComponent (elapsed : Nat) : Nat := elapsed % 86400

/-- Embedding of `SecurityManager.check_lockout(user_id)`.  The failed-attempts map
`user_id -> (attempts, last_attempt)` is modelled as a function into
`Option`; wall-clock instants are seconds since an epoch, with `now`
passed explicitly.  The source compares `time_since.seconds` (the
seconds-within-day component of `datetime.now() - last_attempt`) with the
300-second `lockout_duration`, and deletes the record when that comparison
fails.  Returns the verdict and the updated map. -/
def check_lockout (failed_attempts : String → Option (Nat × Nat))
    (now : Nat) (user_id : String) :
    Bool × (String → Option (Nat × Nat)) :=
  match failed_attempts user_id with
  | some (attempts, last_attempt) =>
      if 3 ≤ attempts then
        if timedeltaSecondsComponent (now - last_attempt) < 300 then
          (true, failed_attempts)
        else
          (false, fun u => if u = user_id then none else failed_attempts u)
      else (false, failed_attempts)
  | none => (false, failed_attempts)

/-- Embedding of `SecurityManager.record_failed_attempt(user_id)`. -/
def record_failed_attempt (failed_attempts : String → Option (Nat × Nat))
    (now : Nat) (user_id : String) : String → Option (Nat × Nat) :=
  match failed_attempts user_id with
  | some (attempts, _) =>
      fun u => if u = user_id then some (attempts + 1, now) else failed_attempts u
  | none =>
      fun u => if u = user_id then some (1, now) else failed_attempts u

/-- The `Transaction` dataclass. -/
structure Transaction where
  transaction_id : String
  user_id : String
  transaction_type : TransactionType
  amount : ℚ
  balance_after : ℚ
  timestamp : Nat
  description : String
  to_user : Option String
deriving DecidableEq

/-- State of an `EnhancedUser` object.  The `accounts` dict keyed by
`AccountType` is modelled as a function into `Option Account`. -/
structure EnhancedUser where
  user_id : String
  name : String
  pin : String
  password_hash : String
  email : String
  phone : String
  created_date : Nat
  last_login : Option Nat
  accounts : AccountType → Option Account

/-- Embedding of `SecurityManager.hash_password`: SHA-256 of the salted password.  The
digest is only ever stored and compared for equality, so the one-way
transform is modelled by the salted input itself. -/
def hash_password (password : String) : String :=
  password ++ "atm_security_salt_2023"

/-- Dict assignment `user.accounts[account_type] = account`. -/
def EnhancedUser.setAccount (u : EnhancedUser) (t : AccountType)
    (a : Account) : EnhancedUser :=
  { u with accounts := fun s => if s = t then some a else u.accounts s }

/-- Embedding of `EnhancedUser.add_account(account_type, initial_balance)`. -/
def EnhancedUser.add_account (u : EnhancedUser) (t : AccountType)
    (initial_balance : ℚ) (today : Nat) : EnhancedUser :=
  u.setAccount t
    (Account.init (u.user_id ++ "_" ++ t.value) t initial_balance today)

/-- Zero-padded rendering of a user number, modelling `f"{n:04d}"`. -/
def pad4 (n : Nat) : String :=
  let s := toString n
  String.mk (List.replicate (4 - s.length) '0') ++ s

/-- Embedding of `EnhancedATMSystem.register_user(name, pin, password, email, phone)`.
`user_count` is `len(self.db_manager.data['users'])`; `today` is the
creation date read from the clock.  Returns `none` when validation raises
(the `except` clause returns `None`). -/
def register_user (user_count : Nat) (name pin password email phone : String)
    (today : Nat) : Option EnhancedUser :=
  let user_id := "USER_" ++ pad4 (user_count + 1)
  if pin.length ≠ 4 ∨ ¬ (pin.data.all Char.isDigit = true) then none
  else if password.length < 6 then none
  else
    let user : EnhancedUser :=
      { user_id := user_id
        name := name
        pin := pin
        password_hash := hash_password password
        email := email
        phone := phone
        created_date := today
        last_login := none
        accounts := fun _ => none }
    some (user.add_account AccountType.checking 0 today)

/-- Embedding of `ATMSession.create_transaction(transaction_type, amount, description,
to_user)`: snapshots the session user's Checking balance (0.0 when the
user holds no Checking account) as `balance_after`, builds the record and
appends it to the persisted transaction list.  `now` is the clock reading
used for both the id and the timestamp. -/
def create_transaction (now : Nat) (user : EnhancedUser)
    (transaction_type : TransactionType) (amount : ℚ) (description : String)
    (to_user : Option String) (transactions : List Transaction) :
    Transaction × List Transaction :=
  let balance_after : ℚ :=
    match user.accounts AccountType.checking with
    | some primary_account => primary_account.balance
    | none => 0
  let tx : Transaction :=
    { transaction_id := user.user_id ++ "_" ++ toString now
      user_id := user.user_id
      transaction_type := transaction_type
      amount := amount
      balance_after := balance_after
      timestamp := now
      description := description
      to_user := to_user }
  (tx, transactions ++ [tx])

/-- The `withdraw_money(session)` flow for a chosen account type and
amount: checks `can_withdraw`, then calls `withdraw` and on success
records a Withdrawal transaction.  Returns the updated user and
transaction list. -/
def withdraw_money (today now : Nat) (user : EnhancedUser) (t : AccountType)
    (amount : ℚ) (transactions : List Transaction) :
    EnhancedUser × List Transaction :=
  match user.accounts t with
  | none => (user, transactions)
  | some account =>
    let chk := account.can_withdraw today amount
    let user1 := user.setAccount t chk.2
    if chk.1.1 then
      let w := chk.2.withdraw today amount
      let user2 := user1.setAccount t w.2
      if w.1 then
        let r := create_transaction now user2 TransactionType.withdrawal
          amount ("Withdrawal from " ++ t.value ++ " account") none transactions
        (user2, r.2)
      else (user2, transactions)
    else (user1, transactions)

/-- The `transfer_money(session)` flow once the recipient has been loaded:
checks `can_withdraw` on the chosen source account, asks for confirmation,
then withdraws from the source, deposits into the recipient's Checking
account (creating it at balance 0 if absent) and records a single Transfer
transaction on the sender's side with the recipient as counterparty.
Returns the updated sender, recipient and transaction list. -/
def transfer_money (today now : Nat) (sender recipient : EnhancedUser)
    (t : AccountType) (amount : ℚ) (confirm : Bool)
    (transactions : List Transaction) :
    EnhancedUser × EnhancedUser × List Transaction :=
  match sender.accounts t with
  | none => (sender, recipient, transactions)
  | some account =>
    let chk := account.can_withdraw today amount
    let sender1 := sender.setAccount t chk.2
    if chk.1.1 then
      if confirm then
        let w := chk.2.withdraw today amount
        let sender2 := sender1.setAccount t w.2
        if w.1 then
          let recipient1 :=
            match recipient.accounts AccountType.checking with
            | some _ => recipient
            | none => recipient.add_account AccountType.checking 0 today
          match recipient1.accounts AccountType.checking with
          | some recipient_account =>
            let recipient2 :=
              recipient1.setAccount AccountType.checking
                (recipient_account.deposit amount).2
            let r := create_transaction now sender2 TransactionType.transfer
              amount ("Transfer to " ++ recipient.name)
              (some recipient.user_id) transactions
            (sender2, recipient2, r.2)
          | none => (sender2, recipient1, transactions)
        else (sender2, recipient, transactions)
      else (sender1, recipient, transactions)
    else (sender1, recipient, transactions)

/-- Per-account slice of the serialized user record written by
`DatabaseManager.save_user`. -/
structure AccountData where
  account_id : String
  balance : ℚ
  daily_withdrawn : ℚ
  last_reset_date : Nat
deriving DecidableEq

/-- The serialized user record stored under `data['users'][user_id]`.
The JSON `accounts` object keyed by `account_type.value` strings is
modelled as a function from strings into `Option AccountData`. -/
structure UserData where
  user_id : String
  name : String
  pin : String
  password_hash : String
  email : String
  phone : String
  created_date : Nat
  last_login : Option Nat
  accounts : String → Option AccountData

/-- Embedding of `DatabaseManager.save_user(user)`: the record it stores. -/
def save_user (u : EnhancedUser) : UserData :=
  { user_id := u.user_id
    name := u.name
    pin := u.pin
    password_hash := u.password_hash
    email := u.email
    phone := u.phone
    created_date := u.created_date
    last_login := u.last_login
    accounts := fun s =>
      match AccountType.fromValue? s with
      | some t =>
          (u.accounts t).map (fun a =>
            { account_id := a.account_id
              balance := a.balance
              daily_withdrawn := a.daily_withdrawn
              last_reset_date := a.last_reset_date })
      | none => none }

/-- Embedding of `DatabaseManager.load_user(user_id)` applied to a stored record:
reconstructs each account through `Account.__init__` (which re-derives the
type's limits and stamps `today`), then overwrites `daily_withdrawn` and
`last_reset_date` from the stored data. -/
def load_user (today : Nat) (d : UserData) : EnhancedUser :=
  { user_id := d.user_id
    name := d.name
    pin := d.pin
    password_hash := d.password_hash
    email := d.email
    phone := d.phone
    created_date := d.created_date
    last_login := d.last_login
    accounts := fun t =>
      (d.accounts t.value).map (fun ad =>
        let a := Account.init ad.account_id t ad.balance today
        { a with
            daily_withdrawn := ad.daily_withdrawn
            last_reset_date := ad.last_reset_date }) }

/-- Stable insertion (newest-timestamp-first) of a transaction into an
already descending list: the new element goes before the first entry whose
timestamp is less than or equal to its own. -/
def insertDesc (x : Transaction) : List Transaction → List Transaction
  | [] => [x]
  | y :: ys =>
      if y.timestamp ≤ x.timestamp then x :: y :: ys
      else y :: insertDesc x ys

/-- Stable sort by timestamp descending, modelling Python's
`sorted(..., key=lambda x: x.timestamp, reverse=True)` (Timsort is stable,
and `reverse=True` keeps equal keys in insertion order). -/
def sortDesc : List Transaction → List Transaction
  | [] => []
  | x :: xs => insertDesc x (sortDesc xs)

/-- Python list slicing `lst[:limit]` for an `int` limit: a non-negative
limit takes that many leading elements; a negative limit drops `-limit`
trailing elements. -/
def pySlice (limit : Int) (l : List Transaction) : List Transaction :=
  if 0 ≤ limit then l.take limit.toNat
  else l.take (l.length - limit.natAbs)

/-- Embedding of `DatabaseManager.get_user_transactions(user_id, limit)`: the stored
transactions of that user, newest first, sliced to `limit`. -/
def get_user_transactions (transactions : List Transaction)
    (user_id : String) (limit : Int) : List Transaction :=
  pySlice limit
    (sortDesc (transactions.filter (fun t => t.user_id == user_id)))

/-- One `Account`-level operation of the deposit/withdraw repertoire;
each withdrawal carries the local date at which it is attempted. -/
inductive AtmOp where
  | deposit (amount : ℚ)
  | withdraw (today : Nat) (amount : ℚ)

/-- Apply one operation to an account, keeping the resulting state. -/
def applyOp (a : Account) : AtmOp → Account
  | AtmOp.deposit amount => (a.deposit amount).2
  | AtmOp.withdraw today amount => (a.withdraw today amount).2

/-- Run a finite sequence of deposit/withdraw calls against an account. -/
def runOps (a : Account) (ops : List AtmOp) : Account :=
  ops.foldl applyOp a

lemma Account.reset_balance (a : Account) (today : Nat) :
    (a.reset_daily_limit_if_needed today).balance = a.balance := by
  unfold Account.reset_daily_limit_if_needed; split <;> rfl

lemma Account.reset_overdraft (a : Account) (today : Nat) :
    (a.reset_daily_limit_if_needed today).overdraft_limit = a.overdraft_limit := by
  unfold Account.reset_daily_limit_if_needed; split <;> rfl

lemma Account.reset_limit (a : Account) (today : Nat) :
    (a.reset_daily_limit_if_needed today).daily_withdrawal_limit
      = a.daily_withdrawal_limit := by
  unfold Account.reset_daily_limit_if_needed; split <;> rfl

lemma Account.can_withdraw_snd (a : Account) (today : Nat) (amount : ℚ) :
    (a.can_withdraw today amount).2 = a.reset_daily_limit_if_needed today := by
  simp only [Account.can_withdraw]
  split_ifs <;> rfl

lemma Account.can_withdraw_fst (a : Account) (today : Nat) (amount : ℚ) :
    (a.can_withdraw today amount).1.1 = true ↔
      (0 < amount ∧
       (a.reset_daily_limit_if_needed today).daily_withdrawn + amount
         ≤ a.daily_withdrawal_limit ∧
       amount ≤ a.balance + a.overdraft_limit) := by
  simp only [Account.can_withdraw, Account.reset_balance, Account.reset_overdraft,
    Account.reset_limit]
  split_ifs with h1 h2 h3
  · exact iff_of_false (by simp) (by rintro ⟨hpos, -, -⟩; linarith)
  · exact iff_of_false (by simp) (by rintro ⟨-, hdl, -⟩; linarith)
  · exact iff_of_false (by simp) (by rintro ⟨-, -, hf⟩; linarith)
  · exact iff_of_true rfl ⟨not_le.mp h1, not_lt.mp h2, not_lt.mp h3⟩

lemma Account.withdraw_fst (a : Account) (today : Nat) (amount : ℚ) :
    (a.withdraw today amount).1 = (a.can_withdraw today amount).1.1 := by
  simp only [Account.withdraw]
  by_cases h : (a.can_withdraw today amount).1.1 = true <;> simp [h]

lemma Account.withdraw_snd_true (a : Account) (today : Nat) (amount : ℚ)
    (h : (a.can_withdraw today amount).1.1 = true) :
    (a.withdraw today amount).2 =
      { a.reset_daily_limit_if_needed today with
          balance := (a.reset_daily_limit_if_needed today).balance - amount
          daily_withdrawn :=
            (a.reset_daily_limit_if_needed today).daily_withdrawn + amount } := by
  simp only [Account.withdraw, Account.can_withdraw_snd, h, if_true]

lemma Account.withdraw_snd_false (a : Account) (today : Nat) (amount : ℚ)
    (h : (a.can_withdraw today amount).1.1 = false) :
    (a.withdraw today amount).2 = a.reset_daily_limit_if_needed today := by
  simp only [Account.withdraw, Account.can_withdraw_snd, h, Bool.false_eq_true,
    if_false]

lemma applyOp_inv (a : Account) (op : AtmOp)
    (h : a.balance ≥ -a.overdraft_limit) :
    (applyOp a op).balance ≥ -(applyOp a op).overdraft_limit := by
  cases op with
  | deposit amount =>
      simp only [applyOp, Account.deposit]
      split_ifs with h0
      · simp only; linarith
      · exact h
  | withdraw today amount =>
      simp only [applyOp]
      by_cases hw : (a.can_withdraw today amount).1.1 = true
      · obtain ⟨hpos, hdl, hfund⟩ := (Account.can_withdraw_fst a today amount).mp hw
        rw [Account.withdraw_snd_true a today amount hw]
        simp only [Account.reset_overdraft, Account.reset_balance]
        linarith
      · rw [Account.withdraw_snd_false a today amount
          (Bool.not_eq_true _ |>.mp hw)]
        rw [Account.reset_balance, Account.reset_overdraft]
        exact h

lemma runOps_inv : ∀ (ops : List AtmOp) (a : Account),
    a.balance ≥ -a.overdraft_limit →
    (runOps a ops).balance ≥ -(runOps a ops).overdraft_limit
  | [], _, h => h
  | op :: ops, a, h => runOps_inv ops (applyOp a op) (applyOp_inv a op h)

/-- Claim C1: starting from any account whose balance is at least
`-overdraft_limit`, every finite sequence of deposit and withdraw calls
keeps the balance at least `-overdraft_limit`; and after every successful
withdrawal the account's `daily_withdrawn` is at most its
`daily_withdrawal_limit`. -/
theorem balance_overdraft_invariant (a : Account) (ops : List AtmOp)
    (h : a.balance ≥ -a.overdraft_limit) :
    (runOps a ops).balance ≥ -(runOps a ops).overdraft_limit ∧
    (∀ (b : Account) (today : Nat) (amount : ℚ),
      (b.withdraw today amount).1 = true →
      ((b.withdraw today amount).2).daily_withdrawn ≤
        ((b.withdraw today amount).2).daily_withdrawal_limit) := by
  refine ⟨runOps_inv ops a h, ?_⟩
  intro b today amount hw
  rw [Account.withdraw_fst] at hw
  obtain ⟨hpos, hdl, hfund⟩ := (Account.can_withdraw_fst b today amount).mp hw
  rw [Account.withdraw_snd_true b today amount hw]
  simp only [Account.reset_limit]
  linarith

/-- Witness for C1 at a fresh Checking account and a concrete
deposit-then-withdraw sequence. -/
theorem balance_overdraft_invariant_witness :
    (Account.init "w" AccountType.checking 0 0).balance ≥
      -(Account.init "w" AccountType.checking 0 0).overdraft_limit ∧
    ((runOps (Account.init "w" AccountType.checking 0 0)
        [AtmOp.deposit 4500, AtmOp.withdraw 0 300]).balance ≥
      -(runOps (Account.init "w" AccountType.checking 0 0)
        [AtmOp.deposit 4500, AtmOp.withdraw 0 300]).overdraft_limit ∧
     (∀ (b : Account) (today : Nat) (amount : ℚ),
       (b.withdraw today amount).1 = true →
       ((b.withdraw today amount).2).daily_withdrawn ≤
         ((b.withdraw today amount).2).daily_withdrawal_limit)) :=
  ⟨by decide,
   balance_overdraft_invariant (Account.init "w" AccountType.checking 0 0)
     [AtmOp.deposit 4500, AtmOp.withdraw 0 300] (by decide)⟩

/-- Concrete account used to exercise the failed-withdrawal frame claim:
its `last_reset_date` lies before the current date. -/
def c4account : Account :=
  { account_id := "USER_0001_checking"
    account_type := AccountType.checking
    balance := 50
    overdraft_limit := 100
    daily_withdrawal_limit := 500
    daily_withdrawn := 120
    last_reset_date := 0 }

/-- Claim C4 counterexample: `withdraw(0)` on day 1 fails (invalid
amount), yet `daily_withdrawn` and `last_reset_date` are mutated by the
lazy daily reset that `can_withdraw` runs first. -/
theorem withdraw_fail_mutates_on_day_rollover :
    (c4account.withdraw 1 0).1 = false ∧
    ((c4account.withdraw 1 0).2).daily_withdrawn ≠ c4account.daily_withdrawn ∧
    ((c4account.withdraw 1 0).2).last_reset_date ≠ c4account.last_reset_date := by
  decide

/-- Claim C4 (amended): when `withdraw(amount)` fails it returns `false`
and leaves the balance unchanged; the only mutation is the lazy daily
reset applied by `can_withdraw` (so when the local date has not advanced
past `last_reset_date`, the account is completely unchanged). -/
theorem withdraw_fail_frame (a : Account) (today : Nat) (amount : ℚ)
    (h : (a.withdraw today amount).1 = false) :
    ((a.withdraw today amount).2).balance = a.balance ∧
    (a.withdraw today amount).2 = a.reset_daily_limit_if_needed today ∧
    (¬ a.last_reset_date < today → (a.withdraw today amount).2 = a) := by
  rw [Account.withdraw_fst] at h
  rw [Account.withdraw_snd_false a today amount h]
  refine ⟨Account.reset_balance a today, rfl, ?_⟩
  intro hd
  unfold Account.reset_daily_limit_if_needed
  rw [if_neg hd]

/-- Witness for the amended C4 at a concrete failing withdrawal. -/
theorem withdraw_fail_frame_witness :
    (c4account.withdraw 1 0).1 = false ∧
    (((c4account.withdraw 1 0).2).balance = c4account.balance ∧
     (c4account.withdraw 1 0).2 = c4account.reset_daily_limit_if_needed 1 ∧
     (¬ c4account.last_reset_date < 1 → (c4account.withdraw 1 0).2 = c4account)) :=
  ⟨by decide, withdraw_fail_frame c4account 1 0 (by decide)⟩

/-- Decision procedure for a withdrawal transcribed from the spec's §4.2
wording (reset first, then invalid-amount, daily-limit and
insufficient-funds checks, in that order), to be compared with the
source's `Account.can_withdraw`. -/
def canWithdrawSpec (a : Account) (today : Nat) (amount : ℚ) :
    (Bool × WithdrawCheck) × Account :=
  let a' :=
    if a.last_reset_date < today then
      { a with daily_withdrawn := 0, last_reset_date := today }
    else a
  if amount ≤ 0 then ((false, WithdrawCheck.invalidAmount), a')
  else if a'.daily_withdrawal_limit < a'.daily_withdrawn + amount then
    ((false, WithdrawCheck.dailyLimitExceeded), a')
  else if a'.balance + a'.overdraft_limit < amount then
    ((false, WithdrawCheck.insufficientFunds), a')
  else ((true, WithdrawCheck.ok), a')

/-- Claim C5: `can_withdraw` performs the spec's checks in the spec's
order (lazy daily reset, invalid amount, daily limit, insufficient
funds); and on a fresh Checking account holding 4500 a withdrawal of 2000
is rejected for the daily limit, with the balance staying 4500. -/
theorem can_withdraw_check_order :
    (∀ (a : Account) (today : Nat) (amount : ℚ),
      a.can_withdraw today amount = canWithdrawSpec a today amount) ∧
    ((((Account.init "A_checking" AccountType.checking 0 0).deposit
        4500).2.can_withdraw 0 2000).1
      = (false, WithdrawCheck.dailyLimitExceeded) ∧
     ((((Account.init "A_checking" AccountType.checking 0 0).deposit
        4500).2.withdraw 0 2000).2).balance = 4500) := by
  refine ⟨fun a today amount => rfl, ?_, ?_⟩
  · norm_num [Account.init, Account.deposit, Account.can_withdraw,
      Account.reset_daily_limit_if_needed, AccountType.get_daily_limit,
      AccountType.get_overdraft_limit]
  · norm_num [Account.init, Account.deposit, Account.withdraw,
      Account.can_withdraw, Account.reset_daily_limit_if_needed,
      AccountType.get_daily_limit, AccountType.get_overdraft_limit]

/-- Claim C10: a positive deposit adds exactly the amount to the balance,
succeeds, and changes no other account field; the amount is not bounded
above. -/
theorem deposit_frame (a : Account) (x : ℚ) (h : 0 < x) :
    (a.deposit x).1 = true ∧
    ((a.deposit x).2).balance = a.balance + x ∧
    ((a.deposit x).2).daily_withdrawn = a.daily_withdrawn ∧
    ((a.deposit x).2).last_reset_date = a.last_reset_date ∧
    ((a.deposit x).2).overdraft_limit = a.overdraft_limit ∧
    ((a.deposit x).2).daily_withdrawal_limit = a.daily_withdrawal_limit := by
  simp [Account.deposit, h]

/-- Witness for C10 at a deposit of a trillion, far above any cash limit. -/
theorem deposit_frame_witness :
    (0 : ℚ) < 1000000000000 ∧
    ((c4account.deposit 1000000000000).1 = true ∧
     ((c4account.deposit 1000000000000).2).balance
        = c4account.balance + 1000000000000 ∧
     ((c4account.deposit 1000000000000).2).daily_withdrawn
        = c4account.daily_withdrawn ∧
     ((c4account.deposit 1000000000000).2).last_reset_date
        = c4account.last_reset_date ∧
     ((c4account.deposit 1000000000000).2).overdraft_limit
        = c4account.overdraft_limit ∧
     ((c4account.deposit 1000000000000).2).daily_withdrawal_limit
        = c4account.daily_withdrawal_limit) :=
  ⟨by decide, deposit_frame c4account 1000000000000 (by decide)⟩

/-- Failed-attempts map holding one record: three failures for
`USER_0001`, the last one at time 0. -/
def c3attempts : String → Option (Nat × Nat) :=
  fun u => if u = "USER_0001" then some (3, 0) else none

/-- Claim C3: evaluation of `check_lockout` at the divergence point.  With
3 recorded failures and the most recent failure 86500 seconds (one day and
100 seconds) in the past, the 300-second window has long elapsed, yet the
code still reports the user locked out and keeps the record, because
`timedelta.seconds` is the seconds-within-day component
(`86500 % 86400 = 100 < 300`) rather than the total elapsed time. -/
theorem check_lockout_day_wraparound :
    (check_lockout c3attempts 86500 "USER_0001").1 = true ∧
    (check_lockout c3attempts 86500 "USER_0001").2 "USER_0001" = some (3, 0) ∧
    ¬ (86500 - 0 < 300) := by
  decide

/-- Claim C7: registration fails whenever the pin is not exactly 4 digits
or the password is shorter than 6 characters; and a successfully
registered user holds exactly one account, a Checking account at
balance 0. -/
theorem register_user_validation
    (user_count : Nat) (name pin password email phone : String) (today : Nat) :
    ((¬ (pin.length = 4 ∧ pin.data.all Char.isDigit = true) ∨ password.length < 6) →
      register_user user_count name pin password email phone today = none) ∧
    (∀ u, register_user user_count name pin password email phone today = some u →
      (u.accounts AccountType.checking).map Account.balance = some 0 ∧
      u.accounts AccountType.savings = none ∧
      u.accounts AccountType.premium = none) := by
  constructor
  · intro h
    unfold register_user
    split_ifs with h1 h2
    · rfl
    · rfl
    · exfalso
      push_neg at h1
      rcases h with h | h
      · exact h ⟨h1.1, h1.2⟩
      · exact h2 h
  · intro u hu
    unfold register_user at hu
    split_ifs at hu with h1 h2
    injection hu with hu
    subst hu
    refine ⟨?_, ?_, ?_⟩ <;>
      simp [EnhancedUser.add_account, EnhancedUser.setAccount, Account.init]

/-- Expected result of registering user "A" with pin "1234" and password
"secret1" as the first user of the system on day 0. -/
def c7user : EnhancedUser :=
  { user_id := "USER_0001"
    name := "A"
    pin := "1234"
    password_hash := hash_password "secret1"
    email := ""
    phone := ""
    created_date := 0
    last_login := none
    accounts := fun s =>
      if s = AccountType.checking then
        some (Account.init "USER_0001_checking" AccountType.checking 0 0)
      else none }

/-- Witness for C7: a malformed pin is rejected, and the scenario
registration succeeds with a single Checking account at 0. -/
theorem register_user_validation_witness :
    register_user 0 "A" "12a4" "secret1" "" "" 0 = none ∧
    ((c7user.accounts AccountType.checking).map Account.balance = some 0 ∧
     c7user.accounts AccountType.savings = none ∧
     c7user.accounts AccountType.premium = none) :=
  ⟨(register_user_validation 0 "A" "12a4" "secret1" "" "" 0).1
      (Or.inl (by decide)),
   (register_user_validation 0 "A" "1234" "secret1" "" "" 0).2 c7user rfl⟩

lemma EnhancedUser.setAccount_same (u : EnhancedUser) (t : AccountType)
    (a : Account) : (u.setAccount t a).accounts t = some a := by
  simp [EnhancedUser.setAccount]

lemma EnhancedUser.setAccount_other (u : EnhancedUser) (t s : AccountType)
    (a : Account) (h : ¬ s = t) :
    (u.setAccount t a).accounts s = u.accounts s := by
  simp [EnhancedUser.setAccount, h]

/-- Claim C8: a transaction recorded through a session snapshots the
session user's Checking-account balance as `balance_after`; in particular
a withdrawal flow on a non-Checking account records the (untouched)
Checking balance, not the mutated account's. -/
theorem create_transaction_checking_snapshot
    (now : Nat) (user : EnhancedUser) (ty : TransactionType) (amount : ℚ)
    (description : String) (to_u : Option String) (ledger : List Transaction)
    (c : Account) (hc : user.accounts AccountType.checking = some c) :
    ((create_transaction now user ty amount description to_u ledger).1).balance_after
        = c.balance ∧
    (∀ (t : AccountType) (today : Nat), ¬ t = AccountType.checking →
      ∀ tx, (withdraw_money today now user t amount ledger).2 = ledger ++ [tx] →
        tx.balance_after = c.balance) := by
  constructor
  · simp [create_transaction, hc]
  · intro t today ht tx htx
    have hcheck : ¬ AccountType.checking = t := fun hh => ht hh.symm
    rcases hacc : user.accounts t with _ | account
    · simp only [withdraw_money, hacc] at htx
      simp at htx
    · simp only [withdraw_money, hacc] at htx
      split_ifs at htx with h1 h2
      · simp only [create_transaction, EnhancedUser.setAccount_other _ _ _ _ hcheck,
          hc] at htx
        have h3 := List.append_cancel_left htx
        injection h3 with h4
        subst h4
        rfl
      · simp at htx
      · simp at htx

/-- The session user for the Checking-snapshot witness: Checking at 7,
Savings at 100. -/
def c8checking : Account :=
  Account.init "USER_0001_checking" AccountType.checking 7 0

/-- Savings account of the Checking-snapshot witness user. -/
def c8savings : Account :=
  Account.init "USER_0001_savings" AccountType.savings 100 0

/-- Witness user holding a Checking and a Savings account. -/
def c8user : EnhancedUser :=
  { user_id := "USER_0001"
    name := "A"
    pin := "1234"
    password_hash := hash_password "secret1"
    email := ""
    phone := ""
    created_date := 0
    last_login := none
    accounts := fun s =>
      if s = AccountType.checking then some c8checking
      else if s = AccountType.savings then some c8savings
      else none }

/-- The transaction recorded by a 50-withdrawal from the witness user's
Savings account at time 5: note `balance_after` is the Checking balance 7,
not the Savings balance. -/
def c8tx : Transaction :=
  { transaction_id := "USER_0001" ++ "_" ++ toString (5 : Nat)
    user_id := "USER_0001"
    transaction_type := TransactionType.withdrawal
    amount := 50
    balance_after := 7
    timestamp := 5
    description := "Withdrawal from " ++ AccountType.savings.value ++ " account"
    to_user := none }

lemma c8savings_reset : c8savings.reset_daily_limit_if_needed 0 = c8savings := by
  unfold Account.reset_daily_limit_if_needed
  rw [if_neg]
  omega

lemma c8savings_can_withdraw : (c8savings.can_withdraw 0 50).1.1 = true := by
  rw [Account.can_withdraw_fst, c8savings_reset]
  refine ⟨by norm_num, ?_, ?_⟩ <;>
    norm_num [c8savings, Account.init, AccountType.get_daily_limit,
      AccountType.get_overdraft_limit]

lemma c8savings_withdraw_result :
    c8savings.withdraw 0 50 =
      (true,
       { c8savings with
          balance := c8savings.balance - 50
          daily_withdrawn := c8savings.daily_withdrawn + 50 }) := by
  have h1 : (c8savings.withdraw 0 50).1 = true := by
    rw [Account.withdraw_fst]; exact c8savings_can_withdraw
  have h2 := Account.withdraw_snd_true c8savings 0 50 c8savings_can_withdraw
  rw [c8savings_reset] at h2
  exact Prod.ext h1 h2

lemma c8savings_withdrawal :
    (withdraw_money 0 5 c8user AccountType.savings 50 []).2 = [] ++ [c8tx] := by
  have h1 : c8user.accounts AccountType.savings = some c8savings := rfl
  have h2 : (c8savings.can_withdraw 0 50).2 = c8savings := by
    rw [Account.can_withdraw_snd, c8savings_reset]
  simp only [withdraw_money, h1, h2, c8savings_can_withdraw, if_true,
    c8savings_withdraw_result, create_transaction]
  have h3 :
      ((c8user.setAccount AccountType.savings c8savings).setAccount
          AccountType.savings
          { c8savings with
             balance := c8savings.balance - 50
             daily_withdrawn := c8savings.daily_withdrawn + 50 }).accounts
        AccountType.checking = some c8checking := by
    rw [EnhancedUser.setAccount_other _ _ _ _ (by decide),
      EnhancedUser.setAccount_other _ _ _ _ (by decide)]
    rfl
  simp only [EnhancedUser.setAccount, c8user, h3]
  rfl

/-- Witness for C8: the 50-withdrawal from Savings records `balance_after`
equal to the untouched Checking balance. -/
theorem create_transaction_checking_snapshot_witness :
    c8user.accounts AccountType.checking = some c8checking ∧
    ¬ AccountType.savings = AccountType.checking ∧
    (withdraw_money 0 5 c8user AccountType.savings 50 []).2 = [] ++ [c8tx] ∧
    c8tx.balance_after = c8checking.balance :=
  ⟨rfl, by decide, c8savings_withdrawal,
   (create_transaction_checking_snapshot 5 c8user TransactionType.withdrawal 50
       "w" none [] c8checking rfl).2 AccountType.savings 0 (by decide) c8tx
     c8savings_withdrawal⟩

lemma Account.can_withdraw_balance (a : Account) (today : Nat) (amount : ℚ) :
    ((a.can_withdraw today amount).2).balance = a.balance := by
  rw [Account.can_withdraw_snd, Account.reset_balance]

lemma Account.withdraw_balance_true (a : Account) (today : Nat) (amount : ℚ)
    (h : (a.withdraw today amount).1 = true) :
    ((a.withdraw today amount).2).balance = a.balance - amount := by
  rw [Account.withdraw_fst] at h
  rw [Account.withdraw_snd_true _ _ _ h]
  exact congrArg (· - amount) (Account.reset_balance a today)

lemma Account.withdraw_pos (a : Account) (today : Nat) (amount : ℚ)
    (h : (a.withdraw today amount).1 = true) : 0 < amount := by
  rw [Account.withdraw_fst] at h
  exact ((Account.can_withdraw_fst a today amount).mp h).1

lemma Account.withdraw_balance_false (a : Account) (today : Nat) (amount : ℚ)
    (h : (a.withdraw today amount).1 = false) :
    ((a.withdraw today amount).2).balance = a.balance := by
  rw [Account.withdraw_fst] at h
  rw [Account.withdraw_snd_false _ _ _ h, Account.reset_balance]

lemma Account.deposit_balance_pos (a : Account) (amount : ℚ) (h : 0 < amount) :
    ((a.deposit amount).2).balance = a.balance + amount := by
  simp [Account.deposit, h]

/-- Claim C2: a confirmed transfer to a loaded recipient either moves
exactly `amount` (source account down by `amount`, recipient's Checking --
created at 0 when absent -- up by `amount`) and appends exactly one
Transfer transaction on the sender's side naming the recipient, or it
changes neither balance and appends nothing. -/
theorem transfer_money_atomic
    (today now : Nat) (sender recipient : EnhancedUser) (t : AccountType)
    (amount : ℚ) (ledger : List Transaction) (acct : Account)
    (h : sender.accounts t = some acct) :
    ((((transfer_money today now sender recipient t amount true ledger).1).accounts
        t).map Account.balance = some (acct.balance - amount) ∧
     (((transfer_money today now sender recipient t amount true
        ledger).2.1).accounts AccountType.checking).map Account.balance
        = some ((((recipient.accounts AccountType.checking).map
            Account.balance).getD 0) + amount) ∧
     (∃ tx, (transfer_money today now sender recipient t amount true ledger).2.2
          = ledger ++ [tx] ∧
        tx.user_id = sender.user_id ∧
        tx.transaction_type = TransactionType.transfer ∧
        tx.amount = amount ∧
        tx.to_user = some recipient.user_id)) ∨
    ((((transfer_money today now sender recipient t amount true ledger).1).accounts
        t).map Account.balance = some acct.balance ∧
     (transfer_money today now sender recipient t amount true ledger).2.1
        = recipient ∧
     (transfer_money today now sender recipient t amount true ledger).2.2
        = ledger) := by
  by_cases hc : (acct.can_withdraw today amount).1.1 = true
  · by_cases hw : ((acct.can_withdraw today amount).2.withdraw today amount).1 = true
    · left
      have hpos : 0 < amount :=
        Account.withdraw_pos _ today amount hw
      simp only [transfer_money, h, hc, hw, if_true]
      rcases hrc : recipient.accounts AccountType.checking with _ | ra
      · simp only [hrc, EnhancedUser.add_account, EnhancedUser.setAccount_same]
        refine ⟨?_, ?_, ?_⟩
        · simp only [Option.map_some']
          rw [Account.withdraw_balance_true _ _ _ hw,
            Account.can_withdraw_balance]
        · simp only [Option.map_some', Option.map_none', Option.getD_none]
          rw [Account.deposit_balance_pos _ _ hpos]
          simp [Account.init]
        · exact ⟨_, rfl, rfl, rfl, rfl, rfl⟩
      · simp only [hrc, EnhancedUser.setAccount_same]
        refine ⟨?_, ?_, ?_⟩
        · simp only [Option.map_some']
          rw [Account.withdraw_balance_true _ _ _ hw,
            Account.can_withdraw_balance]
        · simp only [Option.map_some', Option.getD_some]
          rw [Account.deposit_balance_pos _ _ hpos]
        · exact ⟨_, rfl, rfl, rfl, rfl, rfl⟩
    · right
      have hw' : ((acct.can_withdraw today amount).2.withdraw today amount).1 = false :=
        Bool.not_eq_true _ |>.mp hw
      simp only [transfer_money, h, hc, hw', if_true, Bool.false_eq_true, if_false,
        EnhancedUser.setAccount_same]
      refine ⟨?_, trivial, trivial⟩
      simp only [Option.map_some']
      rw [Account.withdraw_balance_false _ _ _ hw',
        Account.can_withdraw_balance]
  · right
    have hc' : (acct.can_withdraw today amount).1.1 = false :=
      Bool.not_eq_true _ |>.mp hc
    simp only [transfer_money, h, hc', Bool.false_eq_true, if_false,
      EnhancedUser.setAccount_same]
    refine ⟨?_, trivial, trivial⟩
    simp only [Option.map_some']
    rw [Account.can_withdraw_balance]

/-- Source Checking account of the transfer witness: user B holding 5000. -/
def c2acct : Account :=
  Account.init "USER_0002_checking" AccountType.checking 5000 0

/-- Transfer witness sender (user B). -/
def c2sender : EnhancedUser :=
  { user_id := "USER_0002"
    name := "B"
    pin := "1111"
    password_hash := hash_password "passw1"
    email := ""
    phone := ""
    created_date := 0
    last_login := none
    accounts := fun s =>
      if s = AccountType.checking then some c2acct else none }

/-- Transfer witness recipient (user C) with a Checking account at 0. -/
def c2recipient : EnhancedUser :=
  { user_id := "USER_0003"
    name := "C"
    pin := "2222"
    password_hash := hash_password "passw2"
    email := ""
    phone := ""
    created_date := 0
    last_login := none
    accounts := fun s =>
      if s = AccountType.checking then
        some (Account.init "USER_0003_checking" AccountType.checking 0 0)
      else none }

/-- Witness for C2: user B (5000) makes a confirmed 500 transfer to
user C (0). -/
theorem transfer_money_atomic_witness :
    c2sender.accounts AccountType.checking = some c2acct ∧
    (((((transfer_money 0 9 c2sender c2recipient AccountType.checking 500 true
          []).1).accounts AccountType.checking).map Account.balance
          = some (c2acct.balance - 500) ∧
      (((transfer_money 0 9 c2sender c2recipient AccountType.checking 500 true
          []).2.1).accounts AccountType.checking).map Account.balance
          = some ((((c2recipient.accounts AccountType.checking).map
              Account.balance).getD 0) + 500) ∧
      (∃ tx, (transfer_money 0 9 c2sender c2recipient AccountType.checking 500
            true []).2.2 = [] ++ [tx] ∧
         tx.user_id = c2sender.user_id ∧
         tx.transaction_type = TransactionType.transfer ∧
         tx.amount = 500 ∧
         tx.to_user = some c2recipient.user_id)) ∨
     ((((transfer_money 0 9 c2sender c2recipient AccountType.checking 500 true
          []).1).accounts AccountType.checking).map Account.balance
          = some c2acct.balance ∧
      (transfer_money 0 9 c2sender c2recipient AccountType.checking 500 true
          []).2.1 = c2recipient ∧
      (transfer_money 0 9 c2sender c2recipient AccountType.checking 500 true
          []).2.2 = [])) :=
  ⟨rfl,
   transfer_money_atomic 0 9 c2sender c2recipient AccountType.checking 500 []
     c2acct rfl⟩

/-- Claim C9: saving a user and reloading the stored record reproduces,
for each account type, the same presence, the same balance and the same
`daily_withdrawn` (so the account set and its money state round-trip). -/
theorem save_load_roundtrip (u : EnhancedUser) (today : Nat) (t : AccountType) :
    ((load_user today (save_user u)).accounts t).isSome
        = (u.accounts t).isSome ∧
    ((load_user today (save_user u)).accounts t).map Account.balance
        = (u.accounts t).map Account.balance ∧
    ((load_user today (save_user u)).accounts t).map Account.daily_withdrawn
        = (u.accounts t).map Account.daily_withdrawn := by
  have hv : AccountType.fromValue? t.value = some t := by
    cases t <;> rfl
  rcases ha : u.accounts t with _ | a <;>
    simp [load_user, save_user, hv, ha, Account.init]

lemma mem_insertDesc {x a : Transaction} : ∀ {l : List Transaction},
    a ∈ insertDesc x l ↔ a = x ∨ a ∈ l
  | [] => by simp [insertDesc]
  | y :: ys => by
      unfold insertDesc
      split_ifs with hle
      · simp
      · simp only [List.mem_cons, mem_insertDesc (l := ys)]
        tauto

lemma pairwise_insertDesc (x : Transaction) :
    ∀ {l : List Transaction},
      l.Pairwise (fun a b => b.timestamp ≤ a.timestamp) →
      (insertDesc x l).Pairwise (fun a b => b.timestamp ≤ a.timestamp)
  | [], _ => by simp [insertDesc]
  | y :: ys, h => by
      rw [List.pairwise_cons] at h
      unfold insertDesc
      split_ifs with hle
      · rw [List.pairwise_cons]
        refine ⟨?_, List.pairwise_cons.mpr h⟩
        intro z hz
        rcases List.mem_cons.mp hz with hz | hz
        · exact hz ▸ hle
        · exact le_trans (h.1 z hz) hle
      · rw [List.pairwise_cons]
        refine ⟨?_, pairwise_insertDesc x h.2⟩
        intro z hz
        rcases mem_insertDesc.mp hz with hz | hz
        · exact hz ▸ Nat.le_of_lt (not_le.mp hle)
        · exact h.1 z hz

lemma sortDesc_pairwise : ∀ (l : List Transaction),
    (sortDesc l).Pairwise (fun a b => b.timestamp ≤ a.timestamp)
  | [] => by simp [sortDesc]
  | x :: xs => pairwise_insertDesc x (sortDesc_pairwise xs)

lemma mem_sortDesc {a : Transaction} : ∀ {l : List Transaction},
    a ∈ sortDesc l ↔ a ∈ l
  | [] => by simp [sortDesc]
  | x :: xs => by
      simp only [sortDesc, mem_insertDesc, mem_sortDesc (l := xs), List.mem_cons]

lemma filter_insertDesc (x : Transaction) (ts : Nat) :
    ∀ (l : List Transaction),
      (insertDesc x l).filter (fun a => a.timestamp == ts)
        = if x.timestamp = ts then
            x :: l.filter (fun a => a.timestamp == ts)
          else l.filter (fun a => a.timestamp == ts)
  | [] => by
      by_cases hx : x.timestamp = ts <;> simp [insertDesc, hx]
  | y :: ys => by
      unfold insertDesc
      split_ifs with hle hx hx
      · simp [List.filter_cons, hx]
      · simp [List.filter_cons, hx]
      · have hy : ¬ (y.timestamp = ts) := by
          have := not_le.mp hle
          omega
        simp [List.filter_cons, hx, hy, filter_insertDesc x ts ys]
      · simp [List.filter_cons, hx, filter_insertDesc x ts ys]

lemma filter_sortDesc (ts : Nat) : ∀ (l : List Transaction),
    (sortDesc l).filter (fun a => a.timestamp == ts)
      = l.filter (fun a => a.timestamp == ts)
  | [] => rfl
  | x :: xs => by
      simp only [sortDesc, filter_insertDesc x ts (sortDesc xs),
        filter_sortDesc ts xs]
      by_cases hx : x.timestamp = ts <;> simp [List.filter_cons, hx]

lemma filter_take_exists (p : Transaction → Bool) :
    ∀ (l : List Transaction) (n : Nat),
      ∃ k, (l.take n).filter p = (l.filter p).take k
  | _, 0 => ⟨0, by simp⟩
  | [], _ => ⟨0, by simp⟩
  | x :: xs, n + 1 => by
      obtain ⟨k, hk⟩ := filter_take_exists p xs n
      by_cases hx : p x
      · exact ⟨k + 1, by simp [List.take_succ_cons, List.filter_cons, hx, hk]⟩
      · exact ⟨k, by simp [List.take_succ_cons, List.filter_cons, hx, hk]⟩

/-- Claim C6 (amended to non-negative limits): the ledger history query
returns at most `limit` records, all owned by the queried user, sorted by
timestamp descending, and within each timestamp the records are a prefix
of the user's records in insertion order. -/
theorem get_user_transactions_spec (txs : List Transaction) (uid : String)
    (limit : Int) (h : 0 ≤ limit) :
    ((get_user_transactions txs uid limit).length : Int) ≤ limit ∧
    (∀ tx ∈ get_user_transactions txs uid limit, tx.user_id = uid) ∧
    (get_user_transactions txs uid limit).Pairwise
      (fun a b => b.timestamp ≤ a.timestamp) ∧
    (∀ ts : Nat, ∃ k,
      (get_user_transactions txs uid limit).filter
          (fun tx => tx.timestamp == ts)
        = ((txs.filter (fun tx => tx.user_id == uid)).filter
            (fun tx => tx.timestamp == ts)).take k) := by
  unfold get_user_transactions pySlice
  rw [if_pos h]
  refine ⟨?_, ?_, ?_, ?_⟩
  · have h1 := List.length_take_le limit.toNat
      (sortDesc (txs.filter (fun t => t.user_id == uid)))
    omega
  · intro tx htx
    have h2 : tx ∈ sortDesc (txs.filter (fun t => t.user_id == uid)) :=
      List.mem_of_mem_take htx
    have h3 := mem_sortDesc.mp h2
    have h4 := (List.mem_filter.mp h3).2
    exact eq_of_beq h4
  · exact (sortDesc_pairwise _).sublist (List.take_sublist _ _)
  · intro ts
    obtain ⟨k, hk⟩ := filter_take_exists (fun tx => tx.timestamp == ts)
      (sortDesc (txs.filter (fun t => t.user_id == uid))) limit.toNat
    exact ⟨k, by rw [hk, filter_sortDesc]⟩

/-- First stored transaction of user `u` (timestamp 3). -/
def c6t1 : Transaction :=
  { transaction_id := "u_1"
    user_id := "u"
    transaction_type := TransactionType.deposit
    amount := 1
    balance_after := 1
    timestamp := 3
    description := "d1"
    to_user := none }

/-- Second stored transaction of user `u` (same timestamp 3). -/
def c6t2 : Transaction :=
  { transaction_id := "u_2"
    user_id := "u"
    transaction_type := TransactionType.deposit
    amount := 2
    balance_after := 3
    timestamp := 3
    description := "d2"
    to_user := none }

/-- A transaction belonging to a different user `v` (timestamp 9). -/
def c6t3 : Transaction :=
  { transaction_id := "v_1"
    user_id := "v"
    transaction_type := TransactionType.deposit
    amount := 7
    balance_after := 7
    timestamp := 9
    description := "d3"
    to_user := none }

/-- Claim C6 counterexample: with a negative limit, Python's `[:limit]`
slice drops trailing elements instead of returning at most `limit`
records -- here `limit = -1` yields one record, not at most `-1`. -/
theorem get_user_transactions_negative_limit :
    get_user_transactions [c6t1, c6t2] "u" (-1) = [c6t1] ∧
    ¬ (((get_user_transactions [c6t1, c6t2] "u" (-1)).length : Int)
        ≤ (-1 : Int)) := by
  decide

/-- Witness for the amended C6 on a three-transaction store with a tie
and a foreign user's record. -/
theorem get_user_transactions_spec_witness :
    (0 : Int) ≤ 2 ∧
    (((get_user_transactions [c6t1, c6t3, c6t2] "u" 2).length : Int) ≤ 2 ∧
     (∀ tx ∈ get_user_transactions [c6t1, c6t3, c6t2] "u" 2,
        tx.user_id = "u") ∧
     (get_user_transactions [c6t1, c6t3, c6t2] "u" 2).Pairwise
       (fun a b => b.timestamp ≤ a.timestamp) ∧
     (∀ ts : Nat, ∃ k,
       (get_user_transactions [c6t1, c6t3, c6t2] "u" 2).filter
           (fun tx => tx.timestamp == ts)
         = (([c6t1, c6t3, c6t2].filter (fun tx => tx.user_id == "u")).filter
             (fun tx => tx.timestamp == ts)).take k)) :=
  ⟨by decide, get_user_transactions_spec [c6t1, c6t3, c6t2] "u" 2 (by decide)⟩
